import Mathlib

/-!
Verification of the `mt4bridge` protocol layer (`mt4bridge/bridge.py`).

The bridge turns typed accessor calls into colon-delimited wire strings, sends
them over a synchronous request/reply channel, and decodes the JSON reply with
`json.loads(reply, parse_float=Decimal)`, classifying empty, malformed and
remote-error replies into a `None` ("no result") return.

Embedding choices:
* Python values coming out of `json.loads` are modelled by the inductive
  `PyJson`; the Python value `None` is `PyJson.null`, which is also what the
  JSON literal `null` decodes to (exactly as in Python).
* Numbers are modelled as exact rationals: with `parse_float=Decimal` every
  JSON number literal decodes to its exact decimal value, and Python compares
  `int`/`Decimal` numerically, so `ℚ` carries precisely the observable
  equality semantics.  (The `int` / `Decimal` type distinction is invisible to
  numeric comparison and to every property below.)
* The ZeroMQ REQ socket is modelled by `Transport`: whether `send_string`
  succeeds, and what `recv_string` returns (`none` = a raised `ZMQError`).
  An `ExchangeTrace` records the strings handed to `send_string` and how many
  receives were attempted, so "sends exactly ..." and "without attempting a
  receive" are stated about the trace.
* `json_loads` is an executable model of Python's `json.loads` with
  `parse_float=Decimal` on the standard JSON grammar (strict strings, no
  `NaN`/`Infinity` extensions, which the wire protocol never uses); recursion
  is by a fuel counter large enough for any input, mirroring the recursive
  descent of the stdlib scanner.
-/

namespace MT4Bridge

/-- A Python value as produced by `json.loads(reply, parse_float=Decimal)`.
`null` doubles as the Python value `None`. -/
inductive PyJson : Type where
  | null : PyJson
  | bool (b : Bool) : PyJson
  | num (q : ℚ) : PyJson
  | str (s : String) : PyJson
  | arr (xs : List PyJson) : PyJson
  | obj (kvs : List (String × PyJson)) : PyJson

/-- JSON insignificant whitespace (Python `json` skips exactly these). -/
def isJsonWs (c : Char) : Bool :=
  c = ' ' || c = '\t' || c = '\n' || c = '\r'

/-- Drop leading JSON whitespace. -/
def skipWs : List Char → List Char
  | [] => []
  | c :: cs => if isJsonWs c then skipWs cs else c :: cs

/-- Split off the maximal run of leading decimal digits. -/
def takeDigits : List Char → List Char × List Char
  | [] => ([], [])
  | c :: cs =>
    if c.isDigit then
      let (ds, rest) := takeDigits cs
      (c :: ds, rest)
    else ([], c :: cs)

/-- Numeric value of a digit run. -/
def digitsToNat (ds : List Char) : Nat :=
  ds.foldl (fun acc c => 10 * acc + (c.toNat - '0'.toNat)) 0

/-- Value of a hex digit, `none` for a non-hex character. -/
def hexVal (c : Char) : Option Nat :=
  if c.isDigit then some (c.toNat - '0'.toNat)
  else if 'a' ≤ c ∧ c ≤ 'f' then some (c.toNat - 'a'.toNat + 10)
  else if 'A' ≤ c ∧ c ≤ 'F' then some (c.toNat - 'A'.toNat + 10)
  else none

/-- Parse the JSON number grammar
`-?(0|[1-9][0-9]*)(\.[0-9]+)?([eE][+-]?[0-9]+)?` at the head of the input,
returning its exact decimal value (this is what `parse_float=Decimal` /
`parse_int=int` decode to) and the rest of the input. -/
def parseNumber (cs : List Char) : Option (ℚ × List Char) :=
  let (neg, cs1) :=
    match cs with
    | '-' :: rest => (true, rest)
    | _ => (false, cs)
  match cs1 with
  | [] => none
  | c0 :: _ =>
    if c0.isDigit then
      let (ids, cs2) := takeDigits cs1
      if 1 < ids.length ∧ ids.head? = some '0' then none
      else
        let fr : Option (List Char × List Char) :=
          match cs2 with
          | '.' :: rest =>
            match takeDigits rest with
            | ([], _) => none
            | (ds, r) => some (ds, r)
          | _ => some ([], cs2)
        match fr with
        | none => none
        | some (fds, cs3) =>
          let ex : Option (Int × List Char) :=
            match cs3 with
            | e :: rest =>
              if e = 'e' ∨ e = 'E' then
                let (esgn, rest2) :=
                  match rest with
                  | '+' :: r => ((1 : Int), r)
                  | '-' :: r => ((-1 : Int), r)
                  | _ => ((1 : Int), rest)
                match takeDigits rest2 with
                | ([], _) => none
                | (eds, r) => some (esgn * (digitsToNat eds : Int), r)
              else some (0, cs3)
            | [] => some (0, cs3)
          match ex with
          | none => none
          | some (expv, cs4) =>
            let mantAbs : Int := (digitsToNat ids : Int) * 10 ^ fds.length + digitsToNat fds
            let mant : Int := if neg then -mantAbs else mantAbs
            let e10 : Int := expv - fds.length
            let q : ℚ :=
              if 0 ≤ e10 then ((mant * 10 ^ e10.toNat : Int) : ℚ)
              else mkRat mant (10 ^ (-e10).toNat)
            some (q, cs4)
    else none

/-- Parse the body of a JSON string (the opening quote already consumed),
handling the escapes accepted in Python's strict mode and rejecting raw
control characters.  Fuel bounds the recursion; each step consumes at least
one character, so `cs.length` fuel always suffices. -/
def parseStringBody : Nat → List Char → Option (List Char × List Char)
  | 0, _ => none
  | fuel + 1, cs =>
    match cs with
    | [] => none
    | '"' :: rest => some ([], rest)
    | '\\' :: rest =>
      match rest with
      | [] => none
      | e :: rest2 =>
        let esc : Option Char :=
          if e = '"' then some '"'
          else if e = '\\' then some '\\'
          else if e = '/' then some '/'
          else if e = 'b' then some (Char.ofNat 8)
          else if e = 'f' then some (Char.ofNat 12)
          else if e = 'n' then some '\n'
          else if e = 'r' then some '\r'
          else if e = 't' then some '\t'
          else none
        match esc with
        | some c =>
          match parseStringBody fuel rest2 with
          | some (s, r) => some (c :: s, r)
          | none => none
        | none =>
          if e = 'u' then
            match rest2 with
            | a :: b :: c :: d :: rest3 =>
              match hexVal a, hexVal b, hexVal c, hexVal d with
              | some ha, some hb, some hc, some hd =>
                let code := ((ha * 16 + hb) * 16 + hc) * 16 + hd
                match parseStringBody fuel rest3 with
                | some (s, r) => some (Char.ofNat code :: s, r)
                | none => none
              | _, _, _, _ => none
            | _ => none
          else none
    | c :: rest =>
      if c.toNat < 32 then none
      else
        match parseStringBody fuel rest with
        | some (s, r) => some (c :: s, r)
        | none => none

/-- Insert a key into an association list the way Python dict assignment does:
an existing key keeps its position and takes the new value, a new key is
appended. -/
def dictInsert (k : String) (v : PyJson) :
    List (String × PyJson) → List (String × PyJson)
  | [] => [(k, v)]
  | (k', v') :: rest =>
    if k' = k then (k', v) :: rest else (k', v') :: dictInsert k v rest

/-- Build a Python dict from parsed members in order (later duplicate keys
overwrite earlier values, as `dict(pairs)` does). -/
def mkDict (pairs : List (String × PyJson)) : List (String × PyJson) :=
  pairs.foldl (fun d kv => dictInsert kv.1 kv.2 d) []

mutual

/-- Parse one JSON value at the head of the input (leading whitespace
allowed), returning it and the unconsumed rest. -/
def parseValue : Nat → List Char → Option (PyJson × List Char)
  | 0, _ => none
  | fuel + 1, cs =>
    match skipWs cs with
    | [] => none
    | 'n' :: 'u' :: 'l' :: 'l' :: rest => some (.null, rest)
    | 't' :: 'r' :: 'u' :: 'e' :: rest => some (.bool true, rest)
    | 'f' :: 'a' :: 'l' :: 's' :: 'e' :: rest => some (.bool false, rest)
    | '"' :: rest =>
      match parseStringBody (rest.length + 1) rest with
      | some (s, r) => some (.str (String.mk s), r)
      | none => none
    | '[' :: rest =>
      match skipWs rest with
      | ']' :: r => some (.arr [], r)
      | rest' =>
        match parseElems fuel rest' with
        | some (vs, r) => some (.arr vs, r)
        | none => none
    | '\x7b' :: rest =>
      match skipWs rest with
      | '\x7d' :: r => some (.obj [], r)
      | rest' =>
        match parseMembers fuel rest' with
        | some (kvs, r) => some (.obj (mkDict kvs), r)
        | none => none
    | cs' =>
      match parseNumber cs' with
      | some (q, rest) => some (.num q, rest)
      | none => none

/-- Parse a non-empty comma-separated element list followed by `]`. -/
def parseElems : Nat → List Char → Option (List PyJson × List Char)
  | 0, _ => none
  | fuel + 1, cs =>
    match parseValue fuel cs with
    | none => none
    | some (v, rest) =>
      match skipWs rest with
      | ',' :: r =>
        match parseElems fuel r with
        | some (vs, r') => some (v :: vs, r')
        | none => none
      | ']' :: r => some ([v], r)
      | _ => none

/-- Parse a non-empty comma-separated member list followed by the closing
brace, returning the raw key/value pairs in source order. -/
def parseMembers : Nat → List Char → Option (List (String × PyJson) × List Char)
  | 0, _ => none
  | fuel + 1, cs =>
    match skipWs cs with
    | '"' :: rest =>
      match parseStringBody (rest.length + 1) rest with
      | none => none
      | some (k, rest1) =>
        match skipWs rest1 with
        | ':' :: rest2 =>
          match parseValue fuel rest2 with
          | none => none
          | some (v, rest3) =>
            match skipWs rest3 with
            | ',' :: r =>
              match parseMembers fuel r with
              | some (kvs, r') => some ((String.mk k, v) :: kvs, r')
              | none => none
            | '\x7d' :: r => some ([(String.mk k, v)], r)
            | _ => none
        | _ => none
    | _ => none

end

/-- Model of `json.loads(s, parse_float=Decimal)`: parse one JSON document,
allowing surrounding whitespace only; `none` is a raised `JSONDecodeError`. -/
def json_loads (s : String) : Option PyJson :=
  match parseValue (2 * s.length + 8) s.toList with
  | some (v, rest) => if skipWs rest = [] then some v else none
  | none => none

/-- Python `key in d` on a dict. -/
def hasKey (kvs : List (String × PyJson)) (k : String) : Bool :=
  kvs.any (fun kv => kv.1 = k)

/-- Python `d.get(key)` on a dict. -/
def lookupKey : List (String × PyJson) → String → Option PyJson
  | [], _ => none
  | (k, v) :: rest, key => if k = key then some v else lookupKey rest key

/-- `MT4Bridge._parse_response(reply)`: empty reply, a `JSONDecodeError`, or a
dict containing the key `"error"` all give Python `None` (`PyJson.null`);
anything else is returned as parsed. -/
def parse_response (reply : String) : PyJson :=
  if reply = "" then PyJson.null
  else
    match json_loads reply with
    | none => PyJson.null
    | some data =>
      match data with
      | PyJson.obj kvs => if hasKey kvs "error" then PyJson.null else PyJson.obj kvs
      | _ => data

/-- The ZeroMQ failure modes the source catches or propagates. -/
inductive ZmqError : Type where
  | sendFailed : ZmqError
  | recvFailed : ZmqError
  | connectFailed : ZmqError

/-- One scripted request/reply exchange on the REQ socket: whether
`send_string` succeeds, and what `recv_string` does (`none` = raises
`ZMQError`, `some r` = returns the string `r`). -/
structure Transport : Type where
  sendOk : Bool
  recvResult : Option String

/-- `socket.send_string(s)`: raises `ZMQError` when the transport cannot
transmit. -/
def socket_send (t : Transport) (s : String) : Except ZmqError Unit :=
  if t.sendOk then Except.ok () else Except.error ZmqError.sendFailed

/-- `socket.recv_string()`: raises `ZMQError` on a receive failure. -/
def socket_recv (t : Transport) : Except ZmqError String :=
  match t.recvResult with
  | some r => Except.ok r
  | none => Except.error ZmqError.recvFailed

/-- What one call observably did on the socket: the strings handed to
`send_string`, and how many times `recv_string` was attempted. -/
structure ExchangeTrace : Type where
  sent : List String
  recvAttempts : Nat

/-- `MT4Bridge.send_request(request_str)`: try to send (a caught send failure
returns `""` without receiving), then try to receive (a caught receive
failure returns `""`).  The trace records the socket activity. -/
def send_request (t : Transport) (request_str : String) : ExchangeTrace × String :=
  match socket_send t request_str with
  | Except.error _ => (⟨[request_str], 0⟩, "")
  | Except.ok _ =>
    match socket_recv t with
    | Except.error _ => (⟨[request_str], 1⟩, "")
    | Except.ok reply => (⟨[request_str], 1⟩, reply)

/-- Exception-level view of `send_request`: both socket calls sit inside
`try/except zmq.ZMQError` blocks that return `""`, so the function itself
never lets a `ZMQError` escape. -/
def send_request_catching (t : Transport) (request_str : String) :
    Except ZmqError String :=
  match socket_send t request_str with
  | Except.error _ => Except.ok ""
  | Except.ok _ =>
    match socket_recv t with
    | Except.error _ => Except.ok ""
    | Except.ok reply => Except.ok reply

/-- `MT4Bridge.get_historical_data(symbol, timeframe, bars)`. -/
def get_historical_data (t : Transport) (symbol timeframe : String) (bars : Int) :
    ExchangeTrace × PyJson :=
  let request_str := "HIST:" ++ symbol ++ ":" ++ timeframe ++ ":" ++ toString bars
  let out := send_request t request_str
  (out.1, parse_response out.2)

/-- `MT4Bridge.get_current_tick(symbol)`. -/
def get_current_tick (t : Transport) (symbol : String) : ExchangeTrace × PyJson :=
  let request_str := "CURRENT:" ++ symbol
  let out := send_request t request_str
  (out.1, parse_response out.2)

/-- `MT4Bridge.get_all_timeframes(symbol)`. -/
def get_all_timeframes (t : Transport) (symbol : String) : ExchangeTrace × PyJson :=
  let request_str := "TIMEFRAMES:" ++ symbol
  let out := send_request t request_str
  (out.1, parse_response out.2)

/-- `MT4Bridge.get_indicator(symbol, timeframe, indicator_name, params, bars)`. -/
def get_indicator (t : Transport) (symbol timeframe indicator_name params : String)
    (bars : Int) : ExchangeTrace × PyJson :=
  let request_str := "INDICATOR:" ++ symbol ++ ":" ++ timeframe ++ ":"
    ++ indicator_name ++ ":" ++ params ++ ":" ++ toString bars
  let out := send_request t request_str
  (out.1, parse_response out.2)

/-- `MT4Bridge.__init__(address)`: `socket.connect` sits in a `try/except`
that logs and re-raises, so a connect failure propagates to the caller; on
success the bridge holds the address. -/
def bridge_init (address : String) (connectOk : Bool) : Except ZmqError String :=
  if connectOk then Except.ok address else Except.error ZmqError.connectFailed

/-- The reply of the remote-error example `{"error":"Symbol not found"}`
(braces written as `\x7b`/`\x7d`). -/
def errReply : String := "\x7b\"error\":\"Symbol not found\"\x7d"

/-- A JSON array reply whose single element itself contains an `error` field:
`[{"error":"Symbol not found"}]`. -/
def errElemReply : String := "[\x7b\"error\":\"Symbol not found\"\x7d]"

/-- The current-tick example reply
`{"symbol":"EURUSD.a","bid":1.23456,"ask":1.23478,"last":1.23470,"volume":123,"time":"2025.01.01 12:34"}`. -/
def tickReply : String :=
  "\x7b\"symbol\":\"EURUSD.a\",\"bid\":1.23456,\"ask\":1.23478,\"last\":1.23470,\"volume\":123,\"time\":\"2025.01.01 12:34\"\x7d"

/-- The record the tick example decodes to, numeric fields exact. -/
def tickRecord : List (String × PyJson) :=
  [("symbol", PyJson.str "EURUSD.a"), ("bid", PyJson.num (1.23456 : ℚ)),
   ("ask", PyJson.num (1.23478 : ℚ)), ("last", PyJson.num (1.23470 : ℚ)),
   ("volume", PyJson.num 123), ("time", PyJson.str "2025.01.01 12:34")]

/-- A transport whose reply is the JSON document `null`. -/
def nullTransport : Transport := ⟨true, some "null"⟩

theorem json_loads_empty : json_loads "" = none := rfl

theorem parse_response_empty : parse_response "" = PyJson.null := rfl

theorem json_loads_ne_empty {r : String} {v : PyJson}
    (hp : json_loads r = some v) : r ≠ "" := by
  intro h
  rw [h, json_loads_empty] at hp
  cases hp

theorem parse_response_arr {r : String} {xs : List PyJson}
    (hp : json_loads r = some (PyJson.arr xs)) : parse_response r = PyJson.arr xs := by
  unfold parse_response
  rw [if_neg (json_loads_ne_empty hp), hp]

theorem parse_response_error_obj {r : String} {kvs : List (String × PyJson)}
    (hp : json_loads r = some (PyJson.obj kvs)) (he : hasKey kvs "error" = true) :
    parse_response r = PyJson.null := by
  unfold parse_response
  rw [if_neg (json_loads_ne_empty hp), hp]
  simp [he]

theorem parse_response_of_fail {r : String} (hp : json_loads r = none) :
    parse_response r = PyJson.null := by
  unfold parse_response
  by_cases h : r = ""
  · rw [if_pos h]
  · rw [if_neg h, hp]

theorem send_request_of_ok {t : Transport} {r : String} (hs : t.sendOk = true)
    (hr : t.recvResult = some r) (req : String) :
    send_request t req = (⟨[req], 1⟩, r) := by
  obtain ⟨s, rr⟩ := t
  have hs' : s = true := hs
  have hr' : rr = some r := hr
  subst hs'
  subst hr'
  rfl

theorem send_request_of_sendFail {t : Transport} (hs : t.sendOk = false) (req : String) :
    send_request t req = (⟨[req], 0⟩, "") := by
  obtain ⟨s, rr⟩ := t
  have hs' : s = false := hs
  subst hs'
  rfl

theorem send_request_of_recvFail {t : Transport} (hs : t.sendOk = true)
    (hr : t.recvResult = none) (req : String) :
    send_request t req = (⟨[req], 1⟩, "") := by
  obtain ⟨s, rr⟩ := t
  have hs' : s = true := hs
  have hr' : rr = none := hr
  subst hs'
  subst hr'
  rfl

theorem send_request_trace (t : Transport) (req : String) :
    (send_request t req).1.sent = [req] ∧ (send_request t req).1.recvAttempts ≤ 1 := by
  obtain ⟨s, rr⟩ := t
  cases s <;> cases rr <;> simp [send_request, socket_send, socket_recv]

theorem get_historical_data_def (t : Transport) (symbol timeframe : String) (bars : Int) :
    get_historical_data t symbol timeframe bars =
      ((send_request t ("HIST:" ++ symbol ++ ":" ++ timeframe ++ ":" ++ toString bars)).1,
       parse_response
         (send_request t ("HIST:" ++ symbol ++ ":" ++ timeframe ++ ":" ++ toString bars)).2) :=
  rfl

theorem get_current_tick_def (t : Transport) (symbol : String) :
    get_current_tick t symbol =
      ((send_request t ("CURRENT:" ++ symbol)).1,
       parse_response (send_request t ("CURRENT:" ++ symbol)).2) :=
  rfl

theorem get_all_timeframes_def (t : Transport) (symbol : String) :
    get_all_timeframes t symbol =
      ((send_request t ("TIMEFRAMES:" ++ symbol)).1,
       parse_response (send_request t ("TIMEFRAMES:" ++ symbol)).2) :=
  rfl

theorem get_indicator_def (t : Transport) (symbol timeframe indicator_name params : String)
    (bars : Int) :
    get_indicator t symbol timeframe indicator_name params bars =
      ((send_request t ("INDICATOR:" ++ symbol ++ ":" ++ timeframe ++ ":"
          ++ indicator_name ++ ":" ++ params ++ ":" ++ toString bars)).1,
       parse_response (send_request t ("INDICATOR:" ++ symbol ++ ":" ++ timeframe ++ ":"
          ++ indicator_name ++ ":" ++ params ++ ":" ++ toString bars)).2) :=
  rfl

/-- C1: for every (symbol, timeframe, bar count) triple, `get_historical_data`
hands exactly the string `HIST:<symbol>:<timeframe>:<bar_count>` to
`send_string`, and when the reply decodes to a JSON array it returns that very
array — same length, every record's fields exactly as received. -/
theorem hist_sends_format_and_preserves_array (t : Transport)
    (symbol timeframe : String) (bars : Int) (r : String) (xs : List PyJson)
    (hs : t.sendOk = true) (hr : t.recvResult = some r)
    (hp : json_loads r = some (PyJson.arr xs)) :
    (get_historical_data t symbol timeframe bars).1.sent
        = ["HIST:" ++ symbol ++ ":" ++ timeframe ++ ":" ++ toString bars]
      ∧ (get_historical_data t symbol timeframe bars).2 = PyJson.arr xs := by
  rw [get_historical_data_def, send_request_of_ok hs hr]
  exact ⟨rfl, parse_response_arr hp⟩

theorem hist_sends_format_and_preserves_array_witness :
    (get_historical_data ⟨true, some "[\x7b\"close\":1.2\x7d]"⟩ "EURUSD.a" "H1" 5).1.sent
        = ["HIST:EURUSD.a:H1:5"]
      ∧ (get_historical_data ⟨true, some "[\x7b\"close\":1.2\x7d]"⟩ "EURUSD.a" "H1" 5).2
        = PyJson.arr [PyJson.obj [("close", PyJson.num (mkRat 12 10))]] :=
  hist_sends_format_and_preserves_array ⟨true, some "[\x7b\"close\":1.2\x7d]"⟩
    "EURUSD.a" "H1" 5 "[\x7b\"close\":1.2\x7d]"
    [PyJson.obj [("close", PyJson.num (mkRat 12 10))]] rfl rfl (by rfl)

/-- C2: on the tick example reply, `get_current_tick` returns the record with
every field as received, and its `bid` field is the exact decimal `1.23456`
(no binary floating-point rounding), as `parse_float=Decimal` guarantees. -/
theorem current_tick_exact_decimal_bid :
    (get_current_tick ⟨true, some tickReply⟩ "EURUSD.a").2 = PyJson.obj tickRecord
      ∧ lookupKey tickRecord "bid" = some (PyJson.num (1.23456 : ℚ)) := by
  have hbid : (1.23456 : ℚ) = mkRat 123456 100000 := by
    show Rat.ofScientific 123456 true 5 = mkRat 123456 100000
    rw [Rat.ofScientific_true_def]
    rfl
  have hask : (1.23478 : ℚ) = mkRat 123478 100000 := by
    show Rat.ofScientific 123478 true 5 = mkRat 123478 100000
    rw [Rat.ofScientific_true_def]
    rfl
  have hlast : (1.23470 : ℚ) = mkRat 123470 100000 := by
    show Rat.ofScientific 123470 true 5 = mkRat 123470 100000
    rw [Rat.ofScientific_true_def]
    rfl
  constructor
  · unfold tickRecord
    rw [hbid, hask, hlast]
    rfl
  · unfold tickRecord
    rw [hbid, hask, hlast]
    rfl

/-- C3: whenever the reply decodes to a JSON object containing a field named
`error`, every one of the four operations returns Python `None`. -/
theorem error_object_reply_gives_none (t : Transport) (r : String)
    (kvs : List (String × PyJson)) (hs : t.sendOk = true) (hr : t.recvResult = some r)
    (hp : json_loads r = some (PyJson.obj kvs)) (he : hasKey kvs "error" = true) :
    (∀ symbol timeframe bars,
        (get_historical_data t symbol timeframe bars).2 = PyJson.null)
      ∧ (∀ symbol, (get_current_tick t symbol).2 = PyJson.null)
      ∧ (∀ symbol, (get_all_timeframes t symbol).2 = PyJson.null)
      ∧ (∀ symbol timeframe indicator_name params bars,
          (get_indicator t symbol timeframe indicator_name params bars).2 = PyJson.null) := by
  have hpr : parse_response r = PyJson.null := parse_response_error_obj hp he
  refine ⟨fun symbol timeframe bars => ?_, fun symbol => ?_, fun symbol => ?_,
    fun symbol timeframe indicator_name params bars => ?_⟩
  · rw [get_historical_data_def, send_request_of_ok hs hr]; exact hpr
  · rw [get_current_tick_def, send_request_of_ok hs hr]; exact hpr
  · rw [get_all_timeframes_def, send_request_of_ok hs hr]; exact hpr
  · rw [get_indicator_def, send_request_of_ok hs hr]; exact hpr

theorem error_object_reply_gives_none_witness :
    (get_historical_data ⟨true, some errReply⟩ "EURUSD.a" "H1" 5).2 = PyJson.null
      ∧ (get_current_tick ⟨true, some errReply⟩ "EURUSD.a").2 = PyJson.null
      ∧ (get_all_timeframes ⟨true, some errReply⟩ "EURUSD.a").2 = PyJson.null
      ∧ (get_indicator ⟨true, some errReply⟩ "EURUSD.a" "H1" "MA" "14,0,1,0" 10).2
        = PyJson.null := by
  obtain ⟨h1, h2, h3, h4⟩ := error_object_reply_gives_none ⟨true, some errReply⟩ errReply
    [("error", PyJson.str "Symbol not found")] rfl rfl (by rfl) (by rfl)
  exact ⟨h1 "EURUSD.a" "H1" 5, h2 "EURUSD.a", h3 "EURUSD.a",
    h4 "EURUSD.a" "H1" "MA" "14,0,1,0" 10⟩

/-- C4: an empty raw reply makes every operation return Python `None`; no
exception escapes (the exception-level `send_request_catching` returns
normally with the empty string rather than propagating an error). -/
theorem empty_reply_gives_none (t : Transport) (hs : t.sendOk = true)
    (hr : t.recvResult = some "") :
    (∀ symbol timeframe bars,
        (get_historical_data t symbol timeframe bars).2 = PyJson.null)
      ∧ (∀ symbol, (get_current_tick t symbol).2 = PyJson.null)
      ∧ (∀ symbol, (get_all_timeframes t symbol).2 = PyJson.null)
      ∧ (∀ symbol timeframe indicator_name params bars,
          (get_indicator t symbol timeframe indicator_name params bars).2 = PyJson.null)
      ∧ (∀ request_str, send_request_catching t request_str = Except.ok "") := by
  refine ⟨fun symbol timeframe bars => ?_, fun symbol => ?_, fun symbol => ?_,
    fun symbol timeframe indicator_name params bars => ?_, fun request_str => ?_⟩
  · rw [get_historical_data_def, send_request_of_ok hs hr]; exact parse_response_empty
  · rw [get_current_tick_def, send_request_of_ok hs hr]; exact parse_response_empty
  · rw [get_all_timeframes_def, send_request_of_ok hs hr]; exact parse_response_empty
  · rw [get_indicator_def, send_request_of_ok hs hr]; exact parse_response_empty
  · obtain ⟨s, rr⟩ := t
    have hs' : s = true := hs
    have hr' : rr = some "" := hr
    subst hs'
    subst hr'
    rfl

theorem empty_reply_gives_none_witness :
    (get_historical_data ⟨true, some ""⟩ "EURUSD.a" "H1" 5).2 = PyJson.null
      ∧ (get_current_tick ⟨true, some ""⟩ "EURUSD.a").2 = PyJson.null
      ∧ (get_all_timeframes ⟨true, some ""⟩ "EURUSD.a").2 = PyJson.null
      ∧ (get_indicator ⟨true, some ""⟩ "EURUSD.a" "H1" "MA" "14,0,1,0" 10).2 = PyJson.null := by
  obtain ⟨h1, h2, h3, h4, _⟩ := empty_reply_gives_none ⟨true, some ""⟩ rfl rfl
  exact ⟨h1 "EURUSD.a" "H1" 5, h2 "EURUSD.a", h3 "EURUSD.a",
    h4 "EURUSD.a" "H1" "MA" "14,0,1,0" 10⟩

/-- C5: a non-empty reply that fails to decode as JSON (such as
`INVALID_JSON`) makes every operation return Python `None`; the raised
`JSONDecodeError` is caught, and no exception escapes the request/reply
exchange (`send_request_catching` returns the reply normally). -/
theorem unparseable_reply_gives_none (t : Transport) (r : String) (hs : t.sendOk = true)
    (hr : t.recvResult = some r) (hne : r ≠ "") (hp : json_loads r = none) :
    (∀ symbol timeframe bars,
        (get_historical_data t symbol timeframe bars).2 = PyJson.null)
      ∧ (∀ symbol, (get_current_tick t symbol).2 = PyJson.null)
      ∧ (∀ symbol, (get_all_timeframes t symbol).2 = PyJson.null)
      ∧ (∀ symbol timeframe indicator_name params bars,
          (get_indicator t symbol timeframe indicator_name params bars).2 = PyJson.null)
      ∧ (∀ request_str, send_request_catching t request_str = Except.ok r) := by
  have hpr : parse_response r = PyJson.null := parse_response_of_fail hp
  refine ⟨fun symbol timeframe bars => ?_, fun symbol => ?_, fun symbol => ?_,
    fun symbol timeframe indicator_name params bars => ?_, fun request_str => ?_⟩
  · rw [get_historical_data_def, send_request_of_ok hs hr]; exact hpr
  · rw [get_current_tick_def, send_request_of_ok hs hr]; exact hpr
  · rw [get_all_timeframes_def, send_request_of_ok hs hr]; exact hpr
  · rw [get_indicator_def, send_request_of_ok hs hr]; exact hpr
  · obtain ⟨s, rr⟩ := t
    have hs' : s = true := hs
    have hr' : rr = some r := hr
    subst hs'
    subst hr'
    rfl

theorem unparseable_reply_gives_none_witness :
    (get_historical_data ⟨true, some "INVALID_JSON"⟩ "EURUSD.a" "H1" 5).2 = PyJson.null
      ∧ (get_current_tick ⟨true, some "INVALID_JSON"⟩ "EURUSD.a").2 = PyJson.null
      ∧ (get_all_timeframes ⟨true, some "INVALID_JSON"⟩ "EURUSD.a").2 = PyJson.null
      ∧ (get_indicator ⟨true, some "INVALID_JSON"⟩ "EURUSD.a" "H1" "MA" "14,0,1,0" 10).2
        = PyJson.null := by
  obtain ⟨h1, h2, h3, h4, _⟩ := unparseable_reply_gives_none ⟨true, some "INVALID_JSON"⟩
    "INVALID_JSON" rfl rfl (by decide) (by rfl)
  exact ⟨h1 "EURUSD.a" "H1" 5, h2 "EURUSD.a", h3 "EURUSD.a",
    h4 "EURUSD.a" "H1" "MA" "14,0,1,0" 10⟩

/-- C6: a send failure makes the exchange yield `""` (hence `None`) with zero
receive attempts; a receive failure after a successful send likewise yields
`None`; and in every case exactly one send and at most one receive happen —
no retry at any stage. -/
theorem send_recv_failure_gives_none_no_retry (t : Transport) :
    (t.sendOk = false →
      (∀ request_str, send_request t request_str = (⟨[request_str], 0⟩, ""))
        ∧ (∀ symbol timeframe indicator_name params bars,
            (get_historical_data t symbol timeframe bars).2 = PyJson.null
              ∧ (get_historical_data t symbol timeframe bars).1.recvAttempts = 0
              ∧ (get_current_tick t symbol).2 = PyJson.null
              ∧ (get_current_tick t symbol).1.recvAttempts = 0
              ∧ (get_all_timeframes t symbol).2 = PyJson.null
              ∧ (get_all_timeframes t symbol).1.recvAttempts = 0
              ∧ (get_indicator t symbol timeframe indicator_name params bars).2 = PyJson.null
              ∧ (get_indicator t symbol timeframe indicator_name params bars).1.recvAttempts
                  = 0))
      ∧ (t.sendOk = true → t.recvResult = none →
          ∀ symbol timeframe indicator_name params bars,
            (get_historical_data t symbol timeframe bars).2 = PyJson.null
              ∧ (get_current_tick t symbol).2 = PyJson.null
              ∧ (get_all_timeframes t symbol).2 = PyJson.null
              ∧ (get_indicator t symbol timeframe indicator_name params bars).2 = PyJson.null)
      ∧ (∀ request_str, (send_request t request_str).1.sent.length = 1
          ∧ (send_request t request_str).1.recvAttempts ≤ 1) := by
  refine ⟨fun hsf => ⟨send_request_of_sendFail hsf, ?_⟩, fun hs hr => ?_, fun request_str =>
    ⟨by rw [(send_request_trace t request_str).1]; rfl,
      (send_request_trace t request_str).2⟩⟩
  · intro symbol timeframe indicator_name params bars
    rw [get_historical_data_def, get_current_tick_def, get_all_timeframes_def,
      get_indicator_def, send_request_of_sendFail hsf, send_request_of_sendFail hsf,
      send_request_of_sendFail hsf, send_request_of_sendFail hsf]
    exact ⟨parse_response_empty, rfl, parse_response_empty, rfl, parse_response_empty, rfl,
      parse_response_empty, rfl⟩
  · intro symbol timeframe indicator_name params bars
    rw [get_historical_data_def, get_current_tick_def, get_all_timeframes_def,
      get_indicator_def, send_request_of_recvFail hs hr, send_request_of_recvFail hs hr,
      send_request_of_recvFail hs hr, send_request_of_recvFail hs hr]
    exact ⟨parse_response_empty, parse_response_empty, parse_response_empty,
      parse_response_empty⟩

theorem send_recv_failure_gives_none_no_retry_witness :
    ((get_current_tick ⟨false, none⟩ "EURUSD.a").2 = PyJson.null
        ∧ (get_current_tick ⟨false, none⟩ "EURUSD.a").1.recvAttempts = 0)
      ∧ (get_current_tick ⟨true, none⟩ "EURUSD.a").2 = PyJson.null
      ∧ (send_request ⟨false, none⟩ "CURRENT:EURUSD.a").1.sent.length = 1 := by
  obtain ⟨ha, _, hc⟩ := send_recv_failure_gives_none_no_retry ⟨false, none⟩
  obtain ⟨_, hb, _⟩ := send_recv_failure_gives_none_no_retry ⟨true, none⟩
  obtain ⟨_, _, h3, h4, _⟩ := (ha rfl).2 "EURUSD.a" "H1" "MA" "14,0,1,0" 10
  exact ⟨⟨h3, h4⟩, (hb rfl rfl "EURUSD.a" "H1" "MA" "14,0,1,0" 10).2.1,
    (hc "CURRENT:EURUSD.a").1⟩

/-- C7: `get_indicator` hands exactly the string
`INDICATOR:<symbol>:<timeframe>:<indicator_name>:<param_list>:<bar_count>` to
`send_string`; in particular the example call sends
`INDICATOR:EURUSD.a:H1:MA:14,0,1,0:10`. -/
theorem indicator_request_format (t : Transport)
    (symbol timeframe indicator_name params : String) (bars : Int) :
    (get_indicator t symbol timeframe indicator_name params bars).1.sent
        = ["INDICATOR:" ++ symbol ++ ":" ++ timeframe ++ ":" ++ indicator_name ++ ":"
            ++ params ++ ":" ++ toString bars]
      ∧ (get_indicator t "EURUSD.a" "H1" "MA" "14,0,1,0" 10).1.sent
        = ["INDICATOR:EURUSD.a:H1:MA:14,0,1,0:10"] := by
  rw [get_indicator_def, get_indicator_def]
  exact ⟨(send_request_trace t _).1, (send_request_trace t _).1⟩

/-- C8: a connect failure at construction time is re-raised to the caller
(`bridge_init` propagates the error), whereas per-request transport failures
are caught inside `send_request` and can never escape as an exception
(`send_request_catching` returns normally on every transport). -/
theorem connect_failure_raised_request_failures_swallowed :
    (∀ address, bridge_init address false = Except.error ZmqError.connectFailed)
      ∧ (∀ address, bridge_init address true = Except.ok address)
      ∧ (∀ (t : Transport) (request_str : String),
          ∃ reply, send_request_catching t request_str = Except.ok reply) := by
  refine ⟨fun address => rfl, fun address => rfl, fun t request_str => ?_⟩
  obtain ⟨s, rr⟩ := t
  cases s <;> cases rr <;> exact ⟨_, rfl⟩

/-- C9: remote-error classification looks only at a top-level JSON object: a
reply decoding to a JSON array is always the successful result, even when an
element itself carries an `error` field, as `[{"error":"Symbol not found"}]`
shows at the operation level. -/
theorem array_reply_with_error_elements_is_success (r : String) (xs : List PyJson)
    (hp : json_loads r = some (PyJson.arr xs)) :
    parse_response r = PyJson.arr xs
      ∧ (get_current_tick ⟨true, some errElemReply⟩ "EURUSD.a").2
        = PyJson.arr [PyJson.obj [("error", PyJson.str "Symbol not found")]]
      ∧ (get_current_tick ⟨true, some errElemReply⟩ "EURUSD.a").2 ≠ PyJson.null := by
  refine ⟨parse_response_arr hp, by rfl, ?_⟩
  intro h
  have h2 : PyJson.arr [PyJson.obj [("error", PyJson.str "Symbol not found")]]
      = PyJson.null :=
    (by rfl : PyJson.arr [PyJson.obj [("error", PyJson.str "Symbol not found")]]
        = (get_current_tick ⟨true, some errElemReply⟩ "EURUSD.a").2).trans h
  exact PyJson.noConfusion h2

theorem array_reply_with_error_elements_is_success_witness :
    parse_response errElemReply
      = PyJson.arr [PyJson.obj [("error", PyJson.str "Symbol not found")]] :=
  (array_reply_with_error_elements_is_success errElemReply
    [PyJson.obj [("error", PyJson.str "Symbol not found")]] (by rfl)).1

/-- C10: the reply `null` decodes successfully (to Python `None`), yet every
operation returns `None` on it, and at the public interface it is
indistinguishable from an empty, malformed, or remote-error reply. -/
theorem null_reply_indistinguishable_from_failures :
    json_loads "null" = some PyJson.null
      ∧ (∀ symbol timeframe bars,
          (get_historical_data nullTransport symbol timeframe bars).2 = PyJson.null)
      ∧ (∀ symbol, (get_current_tick nullTransport symbol).2 = PyJson.null)
      ∧ (∀ symbol, (get_all_timeframes nullTransport symbol).2 = PyJson.null)
      ∧ (∀ symbol timeframe indicator_name params bars,
          (get_indicator nullTransport symbol timeframe indicator_name params bars).2
            = PyJson.null)
      ∧ parse_response "null" = parse_response ""
      ∧ parse_response "null" = parse_response "INVALID_JSON"
      ∧ parse_response "null" = parse_response errReply := by
  have hok : ∀ request_str, send_request nullTransport request_str
      = (⟨[request_str], 1⟩, "null") := send_request_of_ok rfl rfl
  refine ⟨rfl, fun symbol timeframe bars => ?_, fun symbol => ?_, fun symbol => ?_,
    fun symbol timeframe indicator_name params bars => ?_, rfl, by rfl, by rfl⟩
  · rw [get_historical_data_def, hok]; rfl
  · rw [get_current_tick_def, hok]; rfl
  · rw [get_all_timeframes_def, hok]; rfl
  · rw [get_indicator_def, hok]; rfl

end MT4Bridge
